import Mathlib

/-!
Verification of the `Options::Options(py::dict options)` constructor from
`src/pybamm/solvers/c_solvers/idaklu/Options.cpp`.

Modelling choices:
* The Python dictionary handed to the constructor is modelled as the record
  `OptionsInput`, holding the already-cast value of every key the constructor
  reads.  C++ `double` fields are modelled as rationals and `sunbooleantype`
  (a C `int`) as `Int`; the constructor only stores these values, it never
  computes with them.
* The constructed C++ object is the record `Options` (all stored fields plus
  the three derived flags set in the constructor body).
* A `throw std::domain_error(msg)` is modelled as `Except.error
  (CppExc.domain_error msg)`; normal return is `Except.ok`.  The error message
  strings are reproduced verbatim from the source.
-/

/-- The values read out of the `py::dict` by the constructor's initializer
list, one field per `options["..."]` access, in source order. -/
structure OptionsInput where
  print_stats : Bool
  jacobian : String
  preconditioner : String
  precon_half_bandwidth : Int
  precon_half_bandwidth_keep : Int
  num_threads : Int
  max_order_bdf : Int
  max_num_steps : Int
  dt_init : Rat
  dt_max : Rat
  max_error_test_failures : Int
  max_nonlinear_iterations : Int
  max_convergence_failures : Int
  nonlinear_convergence_coefficient : Rat
  nonlinear_convergence_coefficient_ic : Rat
  suppress_algebraic_error : Int
  max_num_steps_ic : Int
  max_number_jacobians_ic : Int
  max_number_iterations_ic : Int
  max_linesearch_backtracks_ic : Int
  linesearch_off_ic : Int
  calc_ic : Bool
  linear_solver : String
  linsol_max_iterations : Int
  linear_solution_scaling : Int
  epsilon_linear_tolerance : Rat
  increment_factor : Rat


/-- The constructed `Options` object: every member initialized from the dict,
plus the three flags assigned in the constructor body.  `preconditioner` is
the member's final value (it may be overwritten to `"none"` by the body). -/
structure Options where
  print_stats : Bool
  jacobian : String
  preconditioner : String
  precon_half_bandwidth : Int
  precon_half_bandwidth_keep : Int
  num_threads : Int
  max_order_bdf : Int
  max_num_steps : Int
  dt_init : Rat
  dt_max : Rat
  max_error_test_failures : Int
  max_nonlinear_iterations : Int
  max_convergence_failures : Int
  nonlinear_convergence_coefficient : Rat
  nonlinear_convergence_coefficient_ic : Rat
  suppress_algebraic_error : Int
  max_num_steps_ic : Int
  max_number_jacobians_ic : Int
  max_number_iterations_ic : Int
  max_linesearch_backtracks_ic : Int
  linesearch_off_ic : Int
  calc_ic : Bool
  linear_solver : String
  linsol_max_iterations : Int
  linear_solution_scaling : Int
  epsilon_linear_tolerance : Rat
  increment_factor : Rat
  using_sparse_matrix : Bool
  using_banded_matrix : Bool
  using_iterative_solver : Bool


/-- The one exception type thrown by the constructor: `std::domain_error`
carrying its message. -/
inductive CppExc where
  | domain_error (msg : String)


/-- The first `if`/`else if` chain of the constructor body (lines 41-63):
starting from `using_sparse_matrix = true; using_banded_matrix = false`, it
branches on `jacobian` and returns the pair
`(using_sparse_matrix, using_banded_matrix)` or throws. -/
def jacobianFlags (jacobian : String) : Except CppExc (Bool × Bool) :=
  if jacobian = "sparse" then
    .ok (true, false)
  else if jacobian = "banded" then
    .ok (false, true)
  else if jacobian = "dense" ∨ jacobian = "none" then
    .ok (false, false)
  else if jacobian = "matrix-free" then
    .ok (true, false)
  else
    .error (.domain_error
      ("Unknown jacobian type \"" ++ jacobian ++
       "\". Should be one of \"sparse\", \"banded\", \"dense\", \"matrix-free\" or \"none\"."))

/-- The second `if`/`else if` chain of the constructor body (lines 65-127):
starting from `using_iterative_solver = false`, it checks the
(jacobian, linear solver) combination and returns the final value of
`using_iterative_solver` or throws. -/
def linearSolverCheck (jacobian linear_solver : String) : Except CppExc Bool :=
  if linear_solver = "SUNLinSol_Dense" ∧ (jacobian = "dense" ∨ jacobian = "none") then
    .ok false
  else if linear_solver = "SUNLinSol_KLU" ∧ jacobian = "sparse" then
    .ok false
  else if linear_solver = "SUNLinSol_cuSolverSp_batchQR" ∧ jacobian = "sparse" then
    .ok false
  else if linear_solver = "SUNLinSol_Band" ∧ jacobian = "banded" then
    .ok false
  else if jacobian = "banded" then
    .error (.domain_error
      ("Unknown linear solver or incompatible options: jacobian = \"" ++ jacobian ++
       "\" linear solver = \"" ++ linear_solver ++
       "\". For a banded jacobian please use the SUNLinSol_Band linear solver"))
  else if (linear_solver = "SUNLinSol_SPBCGS" ∨ linear_solver = "SUNLinSol_SPFGMR" ∨
           linear_solver = "SUNLinSol_SPGMR" ∨ linear_solver = "SUNLinSol_SPTFQMR") ∧
          (jacobian = "sparse" ∨ jacobian = "matrix-free") then
    .ok true
  else if jacobian = "sparse" then
    .error (.domain_error
      ("Unknown linear solver or incompatible options: jacobian = \"" ++ jacobian ++
       "\" linear solver = \"" ++ linear_solver ++
       "\". For a sparse jacobian please use the SUNLinSol_KLU linear solver"))
  else if jacobian = "matrix-free" then
    .error (.domain_error
      ("Unknown linear solver or incompatible options. jacobian = \"" ++ jacobian ++
       "\" linear solver = \"" ++ linear_solver ++
       "\". For a matrix-free jacobian please use one of the iterative linear solvers: \"SUNLinSol_SPBCGS\", \"SUNLinSol_SPFGMR\", \"SUNLinSol_SPGMR\", or \"SUNLinSol_SPTFQMR\"."))
  else if jacobian = "none" then
    .error (.domain_error
      ("Unknown linear solver or incompatible options: jacobian = \"" ++ jacobian ++
       "\" linear solver = \"" ++ linear_solver ++
       "\". For no jacobian please use the SUNLinSol_Dense solver"))
  else
    .error (.domain_error
      ("Unknown linear solver or incompatible options. jacobian = \"" ++ jacobian ++
       "\" linear solver = \"" ++ linear_solver ++ "\""))

/-- Assembling the constructed object: the initializer list stored every dict
value in the like-named member; the body then assigned the three flags and the
final `preconditioner` value. -/
def storeFields (o : OptionsInput) (precon : String) (usm ubm uis : Bool) : Options :=
  { print_stats := o.print_stats
    jacobian := o.jacobian
    preconditioner := precon
    precon_half_bandwidth := o.precon_half_bandwidth
    precon_half_bandwidth_keep := o.precon_half_bandwidth_keep
    num_threads := o.num_threads
    max_order_bdf := o.max_order_bdf
    max_num_steps := o.max_num_steps
    dt_init := o.dt_init
    dt_max := o.dt_max
    max_error_test_failures := o.max_error_test_failures
    max_nonlinear_iterations := o.max_nonlinear_iterations
    max_convergence_failures := o.max_convergence_failures
    nonlinear_convergence_coefficient := o.nonlinear_convergence_coefficient
    nonlinear_convergence_coefficient_ic := o.nonlinear_convergence_coefficient_ic
    suppress_algebraic_error := o.suppress_algebraic_error
    max_num_steps_ic := o.max_num_steps_ic
    max_number_jacobians_ic := o.max_number_jacobians_ic
    max_number_iterations_ic := o.max_number_iterations_ic
    max_linesearch_backtracks_ic := o.max_linesearch_backtracks_ic
    linesearch_off_ic := o.linesearch_off_ic
    calc_ic := o.calc_ic
    linear_solver := o.linear_solver
    linsol_max_iterations := o.linsol_max_iterations
    linear_solution_scaling := o.linear_solution_scaling
    epsilon_linear_tolerance := o.epsilon_linear_tolerance
    increment_factor := o.increment_factor
    using_sparse_matrix := usm
    using_banded_matrix := ubm
    using_iterative_solver := uis }

/-- The whole constructor `Options::Options` (lines 8-143): store all dict
values, run the jacobian chain, the linear-solver chain, then the
preconditioner check (`preconditioner` is forced to `"none"` when the solver
is not iterative). -/
def Options.construct (o : OptionsInput) : Except CppExc Options :=
  match jacobianFlags o.jacobian with
  | .error e => .error e
  | .ok (usm, ubm) =>
    match linearSolverCheck o.jacobian o.linear_solver with
    | .error e => .error e
    | .ok uis =>
      if uis then
        if o.preconditioner ≠ "none" ∧ o.preconditioner ≠ "BBDP" then
          .error (.domain_error
            ("Unknown preconditioner \"" ++ o.preconditioner ++
             "\", use one of \"BBDP\" or \"none\""))
        else
          .ok (storeFields o o.preconditioner usm ubm uis)
      else
        .ok (storeFields o "none" usm ubm uis)

/-- From the spec: the fixed accepted set of jacobian kinds. -/
def validJacobian (j : String) : Prop :=
  j = "sparse" ∨ j = "banded" ∨ j = "dense" ∨ j = "none" ∨ j = "matrix-free"

/-- From the spec: the four iterative Krylov linear solver names. -/
def krylovSolver (ls : String) : Prop :=
  ls = "SUNLinSol_SPBCGS" ∨ ls = "SUNLinSol_SPFGMR" ∨
  ls = "SUNLinSol_SPGMR" ∨ ls = "SUNLinSol_SPTFQMR"

/-- From the spec: the fixed (jacobian, linear solver) compatibility matrix. -/
def compatPair (j ls : String) : Prop :=
  (j = "dense" ∧ ls = "SUNLinSol_Dense") ∨
  (j = "none" ∧ ls = "SUNLinSol_Dense") ∨
  (j = "sparse" ∧ ls = "SUNLinSol_KLU") ∨
  (j = "sparse" ∧ ls = "SUNLinSol_cuSolverSp_batchQR") ∨
  (j = "banded" ∧ ls = "SUNLinSol_Band") ∨
  ((j = "sparse" ∨ j = "matrix-free") ∧ krylovSolver ls)

instance (j : String) : Decidable (validJacobian j) := by
  unfold validJacobian; infer_instance

instance (ls : String) : Decidable (krylovSolver ls) := by
  unfold krylovSolver; infer_instance

instance (j ls : String) : Decidable (compatPair j ls) := by
  unfold compatPair krylovSolver; infer_instance

/-- `needle` occurs contiguously inside `hay` (both read as character lists).
Used to state that an error message names an offending option value. -/
def strOccurs (needle hay : String) : Prop :=
  needle.data <:+: hay.data

instance (n h : String) : Decidable (strOccurs n h) := by
  unfold strOccurs; infer_instance

/-- A concrete, fully valid options dictionary (sparse jacobian, KLU solver),
the base point for the concrete inputs below. -/
def baseInput : OptionsInput :=
  { print_stats := false
    jacobian := "sparse"
    preconditioner := "none"
    precon_half_bandwidth := 5
    precon_half_bandwidth_keep := 5
    num_threads := 1
    max_order_bdf := 5
    max_num_steps := 500
    dt_init := 0
    dt_max := 0
    max_error_test_failures := 10
    max_nonlinear_iterations := 4
    max_convergence_failures := 10
    nonlinear_convergence_coefficient := 1
    nonlinear_convergence_coefficient_ic := 1
    suppress_algebraic_error := 0
    max_num_steps_ic := 50
    max_number_jacobians_ic := 40
    max_number_iterations_ic := 100
    max_linesearch_backtracks_ic := 100
    linesearch_off_ic := 0
    calc_ic := true
    linear_solver := "SUNLinSol_KLU"
    linsol_max_iterations := 5
    linear_solution_scaling := 1
    epsilon_linear_tolerance := 1
    increment_factor := 1 }

/-- Dictionary with an unrecognized jacobian kind but a recognized solver. -/
def badJacInput : OptionsInput :=
  { baseInput with jacobian := "foo", linear_solver := "SUNLinSol_Dense" }

/-- Dictionary with another unrecognized jacobian kind. -/
def badJac2Input : OptionsInput :=
  { baseInput with jacobian := "full" }

/-- Dictionary with a valid jacobian but an incompatible solver. -/
def denseKluInput : OptionsInput :=
  { baseInput with jacobian := "dense", linear_solver := "SUNLinSol_KLU" }

/-- Valid dense/dense dictionary carrying a junk preconditioner value. -/
def denseGarbageInput : OptionsInput :=
  { baseInput with jacobian := "dense", linear_solver := "SUNLinSol_Dense",
                   preconditioner := "garbage" }

/-- Valid banded/banded dictionary. -/
def bandedInput : OptionsInput :=
  { baseInput with jacobian := "banded", linear_solver := "SUNLinSol_Band" }

/-- Valid sparse/Krylov dictionary. -/
def spgmrInput : OptionsInput :=
  { baseInput with linear_solver := "SUNLinSol_SPGMR" }

/-- Valid sparse/Krylov dictionary with another Krylov solver. -/
def spbcgsInput : OptionsInput :=
  { baseInput with linear_solver := "SUNLinSol_SPBCGS" }

/-- Sparse/Krylov dictionary with an unrecognized preconditioner. -/
def badPreconInput : OptionsInput :=
  { baseInput with linear_solver := "SUNLinSol_SPGMR", preconditioner := "jacobi" }

/-- Valid dictionary whose numeric options are out of any sensible range
(negative step limits, negative time steps, negative thread count). -/
def negInput : OptionsInput :=
  { baseInput with max_num_steps := -1, dt_init := -3, dt_max := -5,
                   num_threads := -3, max_order_bdf := -7,
                   linsol_max_iterations := -2, epsilon_linear_tolerance := -1 }

/-- Valid matrix-free/Krylov dictionary. -/
def mfInput : OptionsInput :=
  { baseInput with jacobian := "matrix-free", linear_solver := "SUNLinSol_SPGMR" }

/-- The object constructed from `mfInput`. -/
def mfResult : Options :=
  storeFields mfInput "none" true false true

/-- The object constructed from `spbcgsInput`. -/
def spbcgsResult : Options :=
  storeFields spbcgsInput "none" true false true

/-- The object constructed from `negInput`. -/
def negResult : Options :=
  storeFields negInput "none" true false false

theorem compatPair_validJacobian {j ls : String} (h : compatPair j ls) :
    validJacobian j := by
  unfold compatPair at h
  unfold validJacobian
  rcases h with ⟨h, -⟩ | ⟨h, -⟩ | ⟨h, -⟩ | ⟨h, -⟩ | ⟨h, -⟩ | ⟨h, -⟩ <;> tauto

theorem jacobianFlags_isOk_iff (j : String) :
    (jacobianFlags j).isOk = true ↔ validJacobian j := by
  unfold jacobianFlags validJacobian
  split_ifs <;> simp_all [Except.isOk, Except.toBool] <;> tauto

theorem linearSolverCheck_isOk_iff (j ls : String) :
    (linearSolverCheck j ls).isOk = true ↔ compatPair j ls := by
  unfold linearSolverCheck compatPair krylovSolver
  split_ifs <;> simp_all [Except.isOk, Except.toBool] <;> tauto

theorem linearSolverCheck_iterative {j ls : String} {b : Bool}
    (h : linearSolverCheck j ls = .ok b) : b = true ↔ krylovSolver ls := by
  unfold linearSolverCheck at h
  unfold krylovSolver
  split_ifs at h <;> simp_all <;> tauto

/-- Master characterization of success of the constructor, shared by the
claim theorems below. -/
theorem construct_isOk_char (o : OptionsInput) :
    (Options.construct o).isOk = true ↔
      (compatPair o.jacobian o.linear_solver ∧
        (krylovSolver o.linear_solver →
          o.preconditioner = "none" ∨ o.preconditioner = "BBDP")) := by
  unfold Options.construct
  split
  case h_1 e heq =>
    simp only [Except.isOk]
    constructor
    · intro h; cases h
    · rintro ⟨hc, -⟩
      have hv := compatPair_validJacobian hc
      rw [← jacobianFlags_isOk_iff] at hv
      rw [heq] at hv
      cases hv
  case h_2 usm ubm heq =>
    split
    case h_1 e heq2 =>
      simp only [Except.isOk]
      constructor
      · intro h; cases h
      · rintro ⟨hc, -⟩
        rw [← linearSolverCheck_isOk_iff] at hc
        rw [heq2] at hc
        cases hc
    case h_2 uis heq2 =>
      have hcompat : compatPair o.jacobian o.linear_solver := by
        rw [← linearSolverCheck_isOk_iff, heq2]; rfl
      have hiter := linearSolverCheck_iterative heq2
      by_cases huis : uis = true
      · subst huis
        rw [if_pos rfl]
        by_cases hpre : o.preconditioner ≠ "none" ∧ o.preconditioner ≠ "BBDP"
        · rw [if_pos hpre]
          constructor
          · intro h; cases h
          · rintro ⟨-, hp⟩
            rcases hp (hiter.mp rfl) with h | h
            · exact absurd h hpre.1
            · exact absurd h hpre.2
        · rw [if_neg hpre]
          refine iff_of_true rfl ⟨hcompat, fun _ => ?_⟩
          rcases not_and_or.mp hpre with h | h
          · exact Or.inl (not_not.mp h)
          · exact Or.inr (not_not.mp h)
      · rw [if_neg huis]
        exact iff_of_true rfl ⟨hcompat, fun hk => absurd (hiter.mpr hk) huis⟩

theorem except_error_of_not_isOk {α β : Type} {x : Except α β}
    (h : ¬ x.isOk = true) : ∃ e, x = .error e := by
  cases x with
  | error e => exact ⟨e, rfl⟩
  | ok v => simp [Except.isOk, Except.toBool] at h

theorem msg3_facts (p1 x p2 : String) (hp1 : p1.data ≠ []) :
    strOccurs x (p1 ++ x ++ p2) ∧ p1 ++ x ++ p2 ≠ "" := by
  refine ⟨⟨p1.data, p2.data, rfl⟩, ?_⟩
  intro hc
  have h2 := congrArg String.data hc
  simp [hp1] at h2

theorem msg5_facts (p1 x p2 y p3 : String) (hp1 : p1.data ≠ []) :
    strOccurs x (p1 ++ x ++ p2 ++ y ++ p3) ∧
    strOccurs y (p1 ++ x ++ p2 ++ y ++ p3) ∧
    p1 ++ x ++ p2 ++ y ++ p3 ≠ "" := by
  refine ⟨⟨p1.data, (p2 ++ y ++ p3).data, by simp⟩,
          ⟨(p1 ++ x ++ p2).data, p3.data, rfl⟩, ?_⟩
  intro hc
  have h2 := congrArg String.data hc
  simp [hp1] at h2

theorem jacobianFlags_flags {j : String} {usm ubm : Bool}
    (h : jacobianFlags j = .ok (usm, ubm)) :
    (ubm = true ↔ j = "banded") ∧ (usm = true ↔ (j = "sparse" ∨ j = "matrix-free")) := by
  unfold jacobianFlags at h
  split_ifs at h with h1 h2 h3 h4
  all_goals try rcases h3 with h3 | h3
  all_goals simp_all

theorem jacobianFlags_ok_of_valid {j : String} (h : validJacobian j) :
    ∃ usm ubm, jacobianFlags j = .ok (usm, ubm) := by
  rcases h with h | h | h | h | h <;> subst h <;> exact ⟨_, _, rfl⟩

theorem jacobianFlags_error {j : String} {e : CppExc}
    (h : jacobianFlags j = .error e) :
    ¬ validJacobian j ∧
    e = .domain_error
      ("Unknown jacobian type \"" ++ j ++
       "\". Should be one of \"sparse\", \"banded\", \"dense\", \"matrix-free\" or \"none\".") := by
  unfold jacobianFlags at h
  split_ifs at h with h1 h2 h3 h4
  all_goals first
    | exact Except.noConfusion h
    | (injection h with h
       refine ⟨?_, h.symm⟩
       unfold validJacobian
       tauto)

theorem linearSolverCheck_error_msg {j ls : String} {e : CppExc}
    (h : linearSolverCheck j ls = .error e) :
    ∃ msg, e = .domain_error msg ∧
      strOccurs j msg ∧ strOccurs ls msg ∧ msg ≠ "" := by
  unfold linearSolverCheck at h
  split_ifs at h <;>
    first
      | exact Except.noConfusion h
      | (injection h with h
         exact ⟨_, h.symm, (msg5_facts _ j _ ls _ (by decide)).1,
           (msg5_facts _ j _ ls _ (by decide)).2.1,
           (msg5_facts _ j _ ls _ (by decide)).2.2⟩)

theorem construct_ok_elim {o : OptionsInput} {r : Options}
    (h : Options.construct o = .ok r) :
    ∃ usm ubm uis,
      jacobianFlags o.jacobian = .ok (usm, ubm) ∧
      linearSolverCheck o.jacobian o.linear_solver = .ok uis ∧
      ((uis = true ∧ (o.preconditioner = "none" ∨ o.preconditioner = "BBDP") ∧
          r = storeFields o o.preconditioner usm ubm uis) ∨
       (uis = false ∧ r = storeFields o "none" usm ubm uis)) := by
  unfold Options.construct at h
  split at h
  · exact Except.noConfusion h
  case h_2 usm ubm heq =>
    split at h
    · exact Except.noConfusion h
    case h_2 uis heq2 =>
      refine ⟨usm, ubm, uis, heq, heq2, ?_⟩
      by_cases huis : uis = true
      · subst huis
        rw [if_pos rfl] at h
        split_ifs at h with hpre
        injection h with h
        refine Or.inl ⟨rfl, ?_, h.symm⟩
        rcases not_and_or.mp hpre with h | h
        · exact Or.inl (not_not.mp h)
        · exact Or.inr (not_not.mp h)
      · rw [if_neg huis] at h
        injection h with h
        exact Or.inr ⟨Bool.not_eq_true uis ▸ huis, h.symm⟩

theorem construct_error_elim {o : OptionsInput} {e : CppExc}
    (h : Options.construct o = .error e) :
    jacobianFlags o.jacobian = .error e ∨
    linearSolverCheck o.jacobian o.linear_solver = .error e ∨
    e = .domain_error
      ("Unknown preconditioner \"" ++ o.preconditioner ++
       "\", use one of \"BBDP\" or \"none\"") := by
  unfold Options.construct at h
  split at h
  case h_1 e' heq =>
    injection h with h
    exact Or.inl (h ▸ heq)
  case h_2 usm ubm heq =>
    split at h
    case h_1 e' heq2 =>
      injection h with h
      exact Or.inr (Or.inl (h ▸ heq2))
    case h_2 uis heq2 =>
      split_ifs at h
      injection h with h
      exact Or.inr (Or.inr h.symm)

theorem construct_error_of_stage2 {o : OptionsInput} {usm ubm : Bool} {e : CppExc}
    (h1 : jacobianFlags o.jacobian = .ok (usm, ubm))
    (h2 : linearSolverCheck o.jacobian o.linear_solver = .error e) :
    Options.construct o = .error e := by
  unfold Options.construct
  rw [h1, h2]

/-- Claim C1: construction of `Options` succeeds (returns normally) if and
only if the (jacobian, linear_solver) pair is in the fixed compatibility
matrix and, when the pair uses one of the four Krylov solvers, the
preconditioner is `"none"` or `"BBDP"`. -/
theorem construct_ok_iff_compat (o : OptionsInput) :
    (Options.construct o).isOk = true ↔
      (compatPair o.jacobian o.linear_solver ∧
        (krylovSolver o.linear_solver →
          o.preconditioner = "none" ∨ o.preconditioner = "BBDP")) :=
  construct_isOk_char o

/-- Claim C3: whenever the jacobian value is not in the accepted set
{sparse, banded, dense, none, matrix-free}, construction fails, regardless
of all other option values. -/
theorem construct_fails_bad_jacobian (o : OptionsInput)
    (h : ¬ validJacobian o.jacobian) :
    ∃ e, Options.construct o = .error e := by
  have h1 : ¬ (jacobianFlags o.jacobian).isOk = true := by
    rw [jacobianFlags_isOk_iff]; exact h
  obtain ⟨e, he⟩ := except_error_of_not_isOk h1
  refine ⟨e, ?_⟩
  unfold Options.construct
  rw [he]

/-- Witness for C3 at the concrete dictionary `badJac2Input` (jacobian
"full"). -/
theorem construct_fails_bad_jacobian_witness :
    ¬ validJacobian badJac2Input.jacobian ∧
    ∃ e, Options.construct badJac2Input = .error e :=
  ⟨by decide, construct_fails_bad_jacobian badJac2Input (by decide)⟩

/-- Claim C4: with one of the four Krylov solvers and a compatible jacobian
("sparse" or "matrix-free"), construction succeeds exactly when the
preconditioner is "none" or "BBDP", and fails otherwise. -/
theorem construct_krylov_precon_check (o : OptionsInput)
    (hk : krylovSolver o.linear_solver)
    (hj : o.jacobian = "sparse" ∨ o.jacobian = "matrix-free") :
    ((Options.construct o).isOk = true ↔
      (o.preconditioner = "none" ∨ o.preconditioner = "BBDP")) := by
  rw [construct_isOk_char]
  constructor
  · rintro ⟨-, hp⟩
    exact hp hk
  · intro hp
    refine ⟨?_, fun _ => hp⟩
    unfold compatPair
    tauto

/-- Witness for C4 at `badPreconInput` (sparse jacobian, SPGMR solver,
preconditioner "jacobi"). -/
theorem construct_krylov_precon_check_witness :
    krylovSolver badPreconInput.linear_solver ∧
    (badPreconInput.jacobian = "sparse" ∨ badPreconInput.jacobian = "matrix-free") ∧
    ((Options.construct badPreconInput).isOk = true ↔
      (badPreconInput.preconditioner = "none" ∨ badPreconInput.preconditioner = "BBDP")) :=
  ⟨by decide, by decide,
    construct_krylov_precon_check badPreconInput (by decide) (by decide)⟩

/-- Claim C5: on any successful construction where the resulting solver is
not iterative, the stored preconditioner field is "none", whatever
preconditioner value the dictionary supplied. -/
theorem construct_noniterative_precon_none (o : OptionsInput) (r : Options)
    (h : Options.construct o = .ok r)
    (hni : r.using_iterative_solver = false) :
    r.preconditioner = "none" := by
  obtain ⟨usm, ubm, uis, h1, h2, h3⟩ := construct_ok_elim h
  rcases h3 with ⟨ht, -, hr⟩ | ⟨-, hr⟩
  · subst hr
    subst ht
    simp [storeFields] at hni
  · subst hr
    rfl

/-- Witness for C5 at `denseGarbageInput`, whose dictionary preconditioner
is "garbage" but whose constructed object stores "none". -/
theorem construct_noniterative_precon_none_witness :
    (storeFields denseGarbageInput "none" false false false).preconditioner = "none" :=
  construct_noniterative_precon_none denseGarbageInput
    (storeFields denseGarbageInput "none" false false false) rfl rfl

/-- Claim C6: every validation failure of the constructor is a
`std::domain_error` (the sole constructor of `CppExc`, mirroring that the
source throws no other exception type) carrying a nonempty, descriptive
message, raised during construction itself; there is no other failure mode. -/
theorem construct_error_domain (o : OptionsInput) (e : CppExc)
    (h : Options.construct o = .error e) :
    ∃ msg, e = .domain_error msg ∧ msg ≠ "" := by
  rcases construct_error_elim h with he | he | he
  · obtain ⟨-, he⟩ := jacobianFlags_error he
    refine ⟨_, he, ?_⟩
    exact (msg3_facts "Unknown jacobian type \"" o.jacobian
      "\". Should be one of \"sparse\", \"banded\", \"dense\", \"matrix-free\" or \"none\"."
      (by decide)).2
  · obtain ⟨msg, he, -, -, hne⟩ := linearSolverCheck_error_msg he
    exact ⟨msg, he, hne⟩
  · refine ⟨_, he, ?_⟩
    exact (msg3_facts "Unknown preconditioner \"" o.preconditioner
      "\", use one of \"BBDP\" or \"none\"" (by decide)).2

/-- Witness for C6 at `badJacInput`. -/
theorem construct_error_domain_witness :
    ∃ msg, CppExc.domain_error ("Unknown jacobian type \"" ++ "foo" ++
        "\". Should be one of \"sparse\", \"banded\", \"dense\", \"matrix-free\" or \"none\".") =
      .domain_error msg ∧ msg ≠ "" :=
  construct_error_domain badJacInput
    (.domain_error ("Unknown jacobian type \"" ++ "foo" ++
      "\". Should be one of \"sparse\", \"banded\", \"dense\", \"matrix-free\" or \"none\".")) rfl

/-- Claim C7: on every successful construction, `using_banded_matrix` holds
exactly for a "banded" jacobian and `using_sparse_matrix` exactly for a
"sparse" or "matrix-free" jacobian (so matrix-free leaves it true). -/
theorem construct_matrix_flags (o : OptionsInput) (r : Options)
    (h : Options.construct o = .ok r) :
    (r.using_banded_matrix = true ↔ r.jacobian = "banded") ∧
    (r.using_sparse_matrix = true ↔
      (r.jacobian = "sparse" ∨ r.jacobian = "matrix-free")) := by
  obtain ⟨usm, ubm, uis, h1, h2, h3⟩ := construct_ok_elim h
  have hf := jacobianFlags_flags h1
  rcases h3 with ⟨-, -, hr⟩ | ⟨-, hr⟩ <;> subst hr <;>
    simpa [storeFields] using hf

/-- Witness for C7 at the matrix-free dictionary `mfInput`. -/
theorem construct_matrix_flags_witness :
    (mfResult.using_banded_matrix = true ↔ mfResult.jacobian = "banded") ∧
    (mfResult.using_sparse_matrix = true ↔
      (mfResult.jacobian = "sparse" ∨ mfResult.jacobian = "matrix-free")) :=
  construct_matrix_flags mfInput mfResult rfl

/-- Claim C8: on every successful construction, `using_iterative_solver`
holds exactly when the linear solver is one of the four Krylov names. -/
theorem construct_iterative_flag (o : OptionsInput) (r : Options)
    (h : Options.construct o = .ok r) :
    (r.using_iterative_solver = true ↔
      (r.linear_solver = "SUNLinSol_SPBCGS" ∨ r.linear_solver = "SUNLinSol_SPFGMR" ∨
       r.linear_solver = "SUNLinSol_SPGMR" ∨ r.linear_solver = "SUNLinSol_SPTFQMR")) := by
  obtain ⟨usm, ubm, uis, h1, h2, h3⟩ := construct_ok_elim h
  have hi := linearSolverCheck_iterative h2
  unfold krylovSolver at hi
  rcases h3 with ⟨-, -, hr⟩ | ⟨-, hr⟩ <;> subst hr <;>
    simpa [storeFields] using hi

/-- Witness for C8 at the sparse/SPBCGS dictionary `spbcgsInput`. -/
theorem construct_iterative_flag_witness :
    (spbcgsResult.using_iterative_solver = true ↔
      (spbcgsResult.linear_solver = "SUNLinSol_SPBCGS" ∨
       spbcgsResult.linear_solver = "SUNLinSol_SPFGMR" ∨
       spbcgsResult.linear_solver = "SUNLinSol_SPGMR" ∨
       spbcgsResult.linear_solver = "SUNLinSol_SPTFQMR")) :=
  construct_iterative_flag spbcgsInput spbcgsResult rfl

/-- Claim C9: the constructor performs no range or sanity validation on the
numeric and boolean options: every such field of a successfully constructed
object equals the dictionary value verbatim, and any dictionary agreeing on
the three string options (jacobian, linear solver, preconditioner) also
constructs successfully, whatever its numeric and boolean values. -/
theorem construct_no_numeric_checks (o o2 : OptionsInput) (r : Options)
    (hj : o.jacobian = o2.jacobian)
    (hls : o.linear_solver = o2.linear_solver)
    (hpre : o.preconditioner = o2.preconditioner)
    (h : Options.construct o = .ok r) :
    (Options.construct o2).isOk = true ∧
    (r.print_stats = o.print_stats ∧
     r.precon_half_bandwidth = o.precon_half_bandwidth ∧
     r.precon_half_bandwidth_keep = o.precon_half_bandwidth_keep ∧
     r.num_threads = o.num_threads ∧
     r.max_order_bdf = o.max_order_bdf ∧
     r.max_num_steps = o.max_num_steps ∧
     r.dt_init = o.dt_init ∧
     r.dt_max = o.dt_max ∧
     r.max_error_test_failures = o.max_error_test_failures ∧
     r.max_nonlinear_iterations = o.max_nonlinear_iterations ∧
     r.max_convergence_failures = o.max_convergence_failures ∧
     r.nonlinear_convergence_coefficient = o.nonlinear_convergence_coefficient ∧
     r.nonlinear_convergence_coefficient_ic = o.nonlinear_convergence_coefficient_ic ∧
     r.suppress_algebraic_error = o.suppress_algebraic_error ∧
     r.max_num_steps_ic = o.max_num_steps_ic ∧
     r.max_number_jacobians_ic = o.max_number_jacobians_ic ∧
     r.max_number_iterations_ic = o.max_number_iterations_ic ∧
     r.max_linesearch_backtracks_ic = o.max_linesearch_backtracks_ic ∧
     r.linesearch_off_ic = o.linesearch_off_ic ∧
     r.calc_ic = o.calc_ic ∧
     r.linsol_max_iterations = o.linsol_max_iterations ∧
     r.linear_solution_scaling = o.linear_solution_scaling ∧
     r.epsilon_linear_tolerance = o.epsilon_linear_tolerance ∧
     r.increment_factor = o.increment_factor) := by
  constructor
  · have hok : (Options.construct o).isOk = true := by rw [h]; rfl
    rw [construct_isOk_char] at hok
    rw [construct_isOk_char]
    rw [← hj, ← hls, ← hpre]
    exact hok
  · obtain ⟨usm, ubm, uis, h1, h2, h3⟩ := construct_ok_elim h
    rcases h3 with ⟨-, -, hr⟩ | ⟨-, hr⟩ <;> subst hr <;>
      exact ⟨rfl, rfl, rfl, rfl, rfl, rfl, rfl, rfl, rfl, rfl, rfl, rfl, rfl,
             rfl, rfl, rfl, rfl, rfl, rfl, rfl, rfl, rfl, rfl, rfl⟩

/-- Witness for C9: `negInput` carries negative step limits, time steps and
thread counts, yet construction succeeds and stores them verbatim, and the
all-positive `baseInput` with the same string options also succeeds. -/
theorem construct_no_numeric_checks_witness :
    (Options.construct baseInput).isOk = true ∧
    (negResult.print_stats = negInput.print_stats ∧
     negResult.precon_half_bandwidth = negInput.precon_half_bandwidth ∧
     negResult.precon_half_bandwidth_keep = negInput.precon_half_bandwidth_keep ∧
     negResult.num_threads = negInput.num_threads ∧
     negResult.max_order_bdf = negInput.max_order_bdf ∧
     negResult.max_num_steps = negInput.max_num_steps ∧
     negResult.dt_init = negInput.dt_init ∧
     negResult.dt_max = negInput.dt_max ∧
     negResult.max_error_test_failures = negInput.max_error_test_failures ∧
     negResult.max_nonlinear_iterations = negInput.max_nonlinear_iterations ∧
     negResult.max_convergence_failures = negInput.max_convergence_failures ∧
     negResult.nonlinear_convergence_coefficient = negInput.nonlinear_convergence_coefficient ∧
     negResult.nonlinear_convergence_coefficient_ic = negInput.nonlinear_convergence_coefficient_ic ∧
     negResult.suppress_algebraic_error = negInput.suppress_algebraic_error ∧
     negResult.max_num_steps_ic = negInput.max_num_steps_ic ∧
     negResult.max_number_jacobians_ic = negInput.max_number_jacobians_ic ∧
     negResult.max_number_iterations_ic = negInput.max_number_iterations_ic ∧
     negResult.max_linesearch_backtracks_ic = negInput.max_linesearch_backtracks_ic ∧
     negResult.linesearch_off_ic = negInput.linesearch_off_ic ∧
     negResult.calc_ic = negInput.calc_ic ∧
     negResult.linsol_max_iterations = negInput.linsol_max_iterations ∧
     negResult.linear_solution_scaling = negInput.linear_solution_scaling ∧
     negResult.epsilon_linear_tolerance = negInput.epsilon_linear_tolerance ∧
     negResult.increment_factor = negInput.increment_factor) :=
  construct_no_numeric_checks negInput baseInput negResult rfl rfl rfl rfl

set_option maxRecDepth 8000 in
/-- Counterexample to claim C2 as stated: for the dictionary `badJacInput`
the (jacobian, linear_solver) pair ("foo", "SUNLinSol_Dense") lies outside
the compatibility matrix and construction fails, but the message raised (the
unknown-jacobian message, computed here in full) does not name the offending
linear solver. -/
theorem construct_incompat_names_counterexample :
    ¬ compatPair badJacInput.jacobian badJacInput.linear_solver ∧
    Options.construct badJacInput = .error (.domain_error
      ("Unknown jacobian type \"" ++ "foo" ++
       "\". Should be one of \"sparse\", \"banded\", \"dense\", \"matrix-free\" or \"none\".")) ∧
    ¬ strOccurs badJacInput.linear_solver
      ("Unknown jacobian type \"" ++ "foo" ++
       "\". Should be one of \"sparse\", \"banded\", \"dense\", \"matrix-free\" or \"none\".") :=
  ⟨by decide, rfl, by decide⟩

/-- Claim C2 (amended): for every dictionary whose jacobian is in the
accepted set but whose (jacobian, linear_solver) pair is outside the
compatibility matrix, construction fails and the error message names both
the offending jacobian and the offending solver.  (As literally stated the
claim fails: an unrecognized jacobian also puts the pair outside the matrix,
and then the message names only the jacobian.) -/
theorem construct_incompat_fails_names_both (o : OptionsInput)
    (hv : validJacobian o.jacobian)
    (hc : ¬ compatPair o.jacobian o.linear_solver) :
    ∃ msg, Options.construct o = .error (.domain_error msg) ∧
      strOccurs o.jacobian msg ∧ strOccurs o.linear_solver msg := by
  obtain ⟨usm, ubm, h1⟩ := jacobianFlags_ok_of_valid hv
  have h2 : ¬ (linearSolverCheck o.jacobian o.linear_solver).isOk = true := by
    rw [linearSolverCheck_isOk_iff]; exact hc
  obtain ⟨e, he⟩ := except_error_of_not_isOk h2
  obtain ⟨msg, hm, hoj, hol, -⟩ := linearSolverCheck_error_msg he
  subst hm
  exact ⟨msg, construct_error_of_stage2 h1 he, hoj, hol⟩

/-- Witness for amended C2 at `denseKluInput` (dense jacobian, KLU solver). -/
theorem construct_incompat_fails_names_both_witness :
    validJacobian denseKluInput.jacobian ∧
    ¬ compatPair denseKluInput.jacobian denseKluInput.linear_solver ∧
    ∃ msg, Options.construct denseKluInput = .error (.domain_error msg) ∧
      strOccurs denseKluInput.jacobian msg ∧
      strOccurs denseKluInput.linear_solver msg :=
  ⟨by decide, by decide,
    construct_incompat_fails_names_both denseKluInput (by decide) (by decide)⟩
